import Mathlib

/-
Shallow embedding of the session credential lifecycle and external-process
orchestration subsystem of the regis desktop client
(src/src-tauri/src/main.rs), together with theorems settling the frozen
claims about it.

External collaborators (the chrono RFC 3339 parser, serde_json, the OS
keychain, and the external Boundary CLI) are modelled as explicit
parameters of an environment record: the embedding of each repository
function is a direct transcription of its control flow over that
environment.  Machine integers are Nat/Int; the keychain and the health
table are association lists; every CLI invocation made by a call is
recorded in a trace so that claims counting subprocess invocations can be
stated.
-/

namespace Regis

/-! ## JSON values (model of serde_json::Value) -/

/-- Model of a parsed serde_json::Value. -/
inductive Json where
  | null
  | bool (b : Bool)
  | num (n : Int)
  | str (s : String)
  | arr (items : List Json)
  | obj (fields : List (String × Json))

/-- Model of serde_json Value indexing by key: a missing key, or indexing a
non-object, yields Null. -/
def Json.index (j : Json) (key : String) : Json :=
  match j with
  | .obj fields =>
    match fields.lookup key with
    | some v => v
    | none => .null
  | _ => .null

/-- Model of Value::as_str. -/
def Json.asStr : Json → Option String
  | .str s => some s
  | _ => none

/-- Model of Value::as_array. -/
def Json.asArray : Json → Option (List Json)
  | .arr xs => some xs
  | _ => none

/-- Model of Value::as_i64 / as_u64 (integers only in this model). -/
def Json.asInt : Json → Option Int
  | .num n => some n
  | _ => none

/-! ## Data model (structs of main.rs) -/

/-- main.rs BoundaryCommandResult. -/
structure BoundaryCommandResult where
  success : Bool
  exit_code : Int
  stdout : String
  stderr : String
  command : String
  deriving DecidableEq

/-- main.rs BoundaryAuthMethod. -/
structure BoundaryAuthMethod where
  id : String
  name : String
  method_type : String
  description : String
  deriving DecidableEq

/-- main.rs BoundaryScope. -/
structure BoundaryScope where
  id : String
  name : String
  scope_type : String
  description : String
  deriving DecidableEq

/-- main.rs BoundaryTarget. -/
structure BoundaryTarget where
  id : String
  name : String
  target_type : String
  description : String
  address : Option String
  default_port : Option Nat
  deriving DecidableEq

/-- main.rs BoundaryConnection. -/
structure BoundaryConnection where
  session_id : String
  target_id : String
  target_name : String
  connection_type : String
  local_address : String
  local_port : Nat
  status : String
  created_time : String
  expiration_time : Option String
  deriving DecidableEq

/-- main.rs StoredToken. -/
structure StoredToken where
  access_token : String
  refresh_token : Option String
  expires_at : Option String
  server_id : String
  user_id : String
  scope_id : String
  created_at : String
  deriving DecidableEq

/-- main.rs SessionHealth. -/
structure SessionHealth where
  session_id : String
  status : String
  last_check : String
  response_time_ms : Option Nat
  error_count : Nat
  consecutive_failures : Nat
  deriving DecidableEq

/-- main.rs SessionMonitoringStats. -/
structure SessionMonitoringStats where
  total_sessions : Nat
  active_sessions : Nat
  failed_sessions : Nat
  monitoring_enabled : Bool
  last_check : String
  deriving DecidableEq

/-- main.rs Server (the fields used by the commands under study). -/
structure Server where
  id : String
  name : String
  url : String
  description : String
  environment : String
  region : String
  boundary_cli_path : Option String
  deriving DecidableEq

/-- The single configuration field consulted by get_boundary_cli_path
(config.boundary.cli_path). -/
structure AppConfig where
  boundary_cli_path : String
  deriving DecidableEq

/-- The mutable application state touched by the monitoring and registry
code (main.rs AppState, minus the config). -/
structure AppState where
  active_connections : List BoundaryConnection
  session_health : List (String × SessionHealth)
  monitoring_enabled : Bool
  deriving DecidableEq

/-! ## External world -/

/-- One invocation of the external Boundary CLI: the executable path, the
argument list built by the caller, and the optional -addr server address
appended by execute_boundary_command. -/
structure CliCall where
  cliPath : String
  args : List String
  serverAddr : Option String
  deriving DecidableEq

/-- What the OS does with one CLI invocation: the spawn fails, or the child
runs to completion with the given status and output. -/
inductive CliOutcome where
  | spawnErr (msg : String)
  | completed (success : Bool) (exitCode : Int) (stdout stderr : String)
  deriving DecidableEq

/-- The external collaborators of the subsystem, all explicit:
current time (seconds) and its RFC 3339 rendering, the chrono RFC 3339
parser, the serde_json parser, the StoredToken (de)serializer, and the
behavior of the external CLI as a function of the invocation. -/
structure Env where
  now : Int
  nowStr : String
  parseRfc3339 : String → Option Int
  jsonParse : String → Except String Json
  serToken : StoredToken → String
  deToken : String → Except String StoredToken
  cli : CliCall → CliOutcome

/-- The mutable world outside the process: the OS keychain (account name to
serialized blob) and the trace of CLI invocations made so far. -/
structure World where
  keychain : List (String × String)
  trace : List CliCall
  deriving DecidableEq

/-- Overwrite-or-insert on an association list (model of keychain
set_password and of HashMap::insert). -/
def alistSet {β : Type} (m : List (String × β)) (k : String) (v : β) :
    List (String × β) :=
  (k, v) :: m.filter (fun p => p.1 != k)

/-! ## CredentialStore (main.rs lines 1416-1585) -/

/-- main.rs create_keychain_entry: the composite account identifier
format!("{}@{}", user_id, server_id) under the constant service name. -/
def keychainAccount (serverId userId : String) : String :=
  userId ++ "@" ++ serverId

/-- main.rs store_auth_token: serialize the token and write it to the
keychain under the account derived from (server_id, user_id). -/
def store_auth_token (env : Env) (w : World) (token : StoredToken) :
    Except String Unit × World :=
  let account := keychainAccount token.server_id token.user_id
  (.ok (), { w with keychain := alistSet w.keychain account (env.serToken token) })

/-- main.rs retrieve_auth_token: read the blob, deserialize, then reject a
token whose parsed expires_at is strictly in the past; an unparsable
expires_at is only logged and the token is returned. -/
def retrieve_auth_token (env : Env) (w : World) (serverId userId : String) :
    Except String StoredToken :=
  match w.keychain.lookup (keychainAccount serverId userId) with
  | none => .error "Failed to retrieve token from keychain: no entry"
  | some blob =>
    match env.deToken blob with
    | .error e => .error ("Failed to deserialize stored token: " ++ e)
    | .ok token =>
      match token.expires_at with
      | none => .ok token
      | some expiresAt =>
        match env.parseRfc3339 expiresAt with
        | none => .ok token
        | some expiryTime =>
          if env.now > expiryTime then
            .error ("Stored token has expired (expired at: " ++ expiresAt ++ ")")
          else
            .ok token

/-- main.rs delete_auth_token: remove the keychain entry; an absent entry
is an error (keyring delete_password fails). -/
def delete_auth_token (w : World) (serverId userId : String) :
    Except String Unit × World :=
  let account := keychainAccount serverId userId
  match w.keychain.lookup account with
  | none => (.error "Failed to delete token from keychain: no entry", w)
  | some _ =>
    (.ok (), { w with keychain := w.keychain.filter (fun p => p.1 != account) })

/-- main.rs token_exists_in_keychain: true exactly when get_password
succeeds, with no look at the token contents. -/
def token_exists_in_keychain (w : World) (serverId userId : String) : Bool :=
  (w.keychain.lookup (keychainAccount serverId userId)).isSome

/-- main.rs is_token_expired_or_expiring: no expiry means valid; an
unparsable expiry is an error here; otherwise compare now against
expiry minus the threshold (minutes). -/
def is_token_expired_or_expiring (env : Env) (token : StoredToken)
    (thresholdMinutes : Nat) : Except String Bool :=
  match token.expires_at with
  | none => .ok false
  | some expiresAt =>
    match env.parseRfc3339 expiresAt with
    | none => .error ("Failed to parse token expiry time " ++ expiresAt)
    | some expiryTime =>
      .ok (decide (env.now ≥ expiryTime - (thresholdMinutes : Int) * 60))

/-- Helper: on an expired stored token (parsed expiry strictly before now)
retrieve_auth_token returns the expiry error. -/
theorem retrieve_expired_is_error (env : Env) (w : World)
    (serverId userId blob expiresAt : String) (tok : StoredToken) (t : Int)
    (hblob : w.keychain.lookup (keychainAccount serverId userId) = some blob)
    (hde : env.deToken blob = .ok tok)
    (hexp : tok.expires_at = some expiresAt)
    (hparse : env.parseRfc3339 expiresAt = some t)
    (hpast : env.now > t) :
    retrieve_auth_token env w serverId userId
      = .error ("Stored token has expired (expired at: " ++ expiresAt ++ ")") := by
  simp [retrieve_auth_token, hblob, hde, hexp, hparse, hpast]

/-- C4: a stored token whose expires_at parses as RFC 3339 and lies
strictly in the past is rejected by retrieve_auth_token with the expiry
error, and the read-time guard leaves the serialized secret in place in
the keychain. -/
theorem retrieve_rejects_expired_token_without_delete (env : Env) (w : World)
    (serverId userId blob expiresAt : String) (tok : StoredToken) (t : Int)
    (hblob : w.keychain.lookup (keychainAccount serverId userId) = some blob)
    (hde : env.deToken blob = .ok tok)
    (hexp : tok.expires_at = some expiresAt)
    (hparse : env.parseRfc3339 expiresAt = some t)
    (hpast : env.now > t) :
    retrieve_auth_token env w serverId userId
      = .error ("Stored token has expired (expired at: " ++ expiresAt ++ ")")
    ∧ w.keychain.lookup (keychainAccount serverId userId) = some blob := by
  exact ⟨retrieve_expired_is_error env w serverId userId blob expiresAt tok t
    hblob hde hexp hparse hpast, hblob⟩

/-- A concrete expired token and its world, for the witnesses. -/
def tokExpired : StoredToken :=
  { access_token := "bt_expired", refresh_token := none,
    expires_at := some "2020-01-01T00:00:00Z", server_id := "srv1",
    user_id := "alice", scope_id := "global",
    created_at := "2019-12-31T00:00:00Z" }

/-- An environment whose clock stands one hour after tokExpired expired. -/
def envExpired : Env :=
  { now := 3600
    nowStr := "2020-01-01T01:00:00Z"
    parseRfc3339 := fun s => if s = "2020-01-01T00:00:00Z" then some 0 else none
    jsonParse := fun _ => .error "no json expected"
    serToken := fun _ => "BLOB_EXPIRED"
    deToken := fun s => if s = "BLOB_EXPIRED" then .ok tokExpired else .error "bad blob"
    cli := fun _ => .completed false 1 "" "unexpected call" }

/-- The world holding only the expired token blob. -/
def wExpired : World :=
  { keychain := [("alice@srv1", "BLOB_EXPIRED")], trace := [] }

/-- Witness for C4 at the concrete expired token. -/
theorem retrieve_rejects_expired_token_without_delete_witness :
    retrieve_auth_token envExpired wExpired "srv1" "alice"
      = .error "Stored token has expired (expired at: 2020-01-01T00:00:00Z)"
    ∧ wExpired.keychain.lookup (keychainAccount "srv1" "alice")
      = some "BLOB_EXPIRED" := by
  have h := retrieve_rejects_expired_token_without_delete envExpired wExpired
    "srv1" "alice" "BLOB_EXPIRED" "2020-01-01T00:00:00Z" tokExpired 0
    (by decide) (by rfl) (by rfl) (by rfl) (by decide)
  exact h

/-- C10: with a serialized token blob present for the key, the exists
check answers true even though the token is expired, while
retrieve_auth_token for the same (server_id, user_id) returns an error. -/
theorem exists_true_while_retrieve_rejects_expired (env : Env) (w : World)
    (serverId userId blob expiresAt : String) (tok : StoredToken) (t : Int)
    (hblob : w.keychain.lookup (keychainAccount serverId userId) = some blob)
    (hde : env.deToken blob = .ok tok)
    (hexp : tok.expires_at = some expiresAt)
    (hparse : env.parseRfc3339 expiresAt = some t)
    (hpast : env.now > t) :
    token_exists_in_keychain w serverId userId = true
    ∧ retrieve_auth_token env w serverId userId
      = .error ("Stored token has expired (expired at: " ++ expiresAt ++ ")") := by
  constructor
  · simp [token_exists_in_keychain, hblob]
  · exact retrieve_expired_is_error env w serverId userId blob expiresAt tok t
      hblob hde hexp hparse hpast

/-- Witness for C10 at the concrete expired token. -/
theorem exists_true_while_retrieve_rejects_expired_witness :
    token_exists_in_keychain wExpired "srv1" "alice" = true
    ∧ retrieve_auth_token envExpired wExpired "srv1" "alice"
      = .error "Stored token has expired (expired at: 2020-01-01T00:00:00Z)" := by
  exact exists_true_while_retrieve_rejects_expired envExpired wExpired
    "srv1" "alice" "BLOB_EXPIRED" "2020-01-01T00:00:00Z" tokExpired 0
    (by decide) (by rfl) (by rfl) (by rfl) (by decide)

/-! ## ProcessRunner (main.rs execute_boundary_command, lines 637-699) -/

/-- The diagnostic command line logged with each invocation: the CLI path
and the argument list as built by the caller (the -addr argument is
appended afterwards, exactly as in the source). -/
def commandString (cliPath : String) (args : List String) : String :=
  cliPath ++ " " ++ String.intercalate " " args

/-- The result of one CLI invocation as a function of its call data and
the environment: a completed child (of any exit status) yields Ok with its
captured output; a failed spawn yields the spawn error.  The source has no
other outcome: in particular no timeout path exists. -/
def boundary_command_result (env : Env) (cliPath : String) (args : List String)
    (serverAddr : Option String) : Except String BoundaryCommandResult :=
  match env.cli ⟨cliPath, args, serverAddr⟩ with
  | .completed success exitCode out err =>
    .ok { success := success, exit_code := exitCode, stdout := out,
          stderr := err, command := commandString cliPath args }
  | .spawnErr e =>
    .error ("Failed to execute Boundary CLI command "
      ++ commandString cliPath args ++ ": " ++ e)

/-- main.rs execute_boundary_command: runs the CLI once, recording the
invocation in the world trace, and returns the captured result (or the
spawn error).  Nothing else in the world changes. -/
def execute_boundary_command (env : Env) (w : World) (cliPath : String)
    (args : List String) (serverAddr : Option String) :
    Except String BoundaryCommandResult × World :=
  (boundary_command_result env cliPath args serverAddr,
   { w with trace := w.trace ++ [⟨cliPath, args, serverAddr⟩] })

/-- main.rs get_boundary_cli_path: per-server override, else global. -/
def get_boundary_cli_path (server : Server) (config : AppConfig) : String :=
  server.boundary_cli_path.getD config.boundary_cli_path

/-! ## TokenLifecycleManager (main.rs lines 1587-1741, 2732-2778) -/

/-- main.rs validate_token_with_cli: run an authenticated no-op command;
an unsuccessful exit or a spawn failure both mean the token is invalid
(Ok false), never an error. -/
def validate_token_with_cli (env : Env) (w : World) (cliPath serverAddr : String)
    (token : StoredToken) : Except String Bool × World :=
  match execute_boundary_command env w cliPath
      ["auth-tokens", "list", "-format", "json"] (some serverAddr) with
  | (.ok r, w1) => (.ok r.success, w1)
  | (.error _, w1) => (.ok false, w1)

/-- main.rs trigger_reauthentication: run the non-interactive OIDC
authentication command, parse its JSON, fall back to boundary config
get-token when the response lacks a token, and build the new StoredToken
(refresh_token none, scope_id global, created_at now). -/
def trigger_reauthentication (env : Env) (w : World)
    (cliPath serverAddr authMethodId serverId : String) :
    Except String StoredToken × World :=
  match execute_boundary_command env w cliPath
      ["authenticate", "oidc", "-auth-method-id", authMethodId, "-format", "json"]
      (some serverAddr) with
  | (.error e, w1) => (.error e, w1)
  | (.ok result, w1) =>
    if !result.success then
      (.error ("Re-authentication failed: " ++ result.stderr), w1)
    else
      match env.jsonParse result.stdout with
      | .error e => (.error ("Failed to parse authentication response: " ++ e), w1)
      | .ok authInfo =>
        let accessToken := ((authInfo.index "token").asStr).getD ""
        let userId := ((authInfo.index "user_id").asStr).getD ""
        let expirationTime := (authInfo.index "expiration_time").asStr
        let mk := fun (finalToken : String) =>
          ({ access_token := finalToken, refresh_token := none,
             expires_at := expirationTime, server_id := serverId,
             user_id := userId, scope_id := "global",
             created_at := env.nowStr } : StoredToken)
        if accessToken = "" then
          match execute_boundary_command env w1 cliPath ["config", "get-token"] none with
          | (.error e, w2) => (.error e, w2)
          | (.ok tr, w2) =>
            if tr.success then (.ok (mk tr.stdout.trim), w2)
            else (.error "Failed to retrieve token after authentication", w2)
        else
          (.ok (mk accessToken), w1)

/-- The tail of main.rs check_and_refresh_token (lines 1732-1740): trigger
re-authentication and, on success, persist the new token. -/
def refresh_and_store (env : Env) (w : World)
    (cliPath serverAddr authMethodId serverId : String) :
    Except String (Option StoredToken) × World :=
  match trigger_reauthentication env w cliPath serverAddr authMethodId serverId with
  | (.error e, w1) => (.error e, w1)
  | (.ok newToken, w1) =>
    match store_auth_token env w1 newToken with
    | (.error e, w2) => (.error e, w2)
    | (.ok _, w2) => (.ok (some newToken), w2)

/-- main.rs check_and_refresh_token: absent token is Ok none with no CLI
call; a present, not-expiring token is validated remotely and returned
as-is when valid; otherwise the refresh path runs and stores the result. -/
def check_and_refresh_token (env : Env) (w : World)
    (cliPath serverAddr authMethodId serverId userId : String)
    (thresholdMinutes : Nat) : Except String (Option StoredToken) × World :=
  match retrieve_auth_token env w serverId userId with
  | .error _ => (.ok none, w)
  | .ok currentToken =>
    match is_token_expired_or_expiring env currentToken thresholdMinutes with
    | .error e => (.error e, w)
    | .ok needsRefresh =>
      if needsRefresh = false then
        match validate_token_with_cli env w cliPath serverAddr currentToken with
        | (.error e, w1) => (.error e, w1)
        | (.ok true, w1) => (.ok (some currentToken), w1)
        | (.ok false, w1) =>
          refresh_and_store env w1 cliPath serverAddr authMethodId serverId
      else
        refresh_and_store env w cliPath serverAddr authMethodId serverId

/-- main.rs discover_auth_methods: list auth methods, demand a successful
exit, parse the items array leniently (missing fields become ""). -/
def discover_auth_methods (env : Env) (w : World) (cliPath serverAddr : String) :
    Except String (List BoundaryAuthMethod) × World :=
  match execute_boundary_command env w cliPath
      ["auth-methods", "list", "-format", "json"] (some serverAddr) with
  | (.error e, w1) => (.error e, w1)
  | (.ok result, w1) =>
    if !result.success then
      (.error ("Failed to discover auth methods: " ++ result.stderr), w1)
    else
      match env.jsonParse result.stdout with
      | .error e => (.error ("Failed to parse auth methods JSON: " ++ e), w1)
      | .ok json =>
        let items := ((json.index "items").asArray).getD []
        (.ok (items.map (fun item =>
          { id := ((item.index "id").asStr).getD ""
            name := ((item.index "name").asStr).getD ""
            method_type := ((item.index "type").asStr).getD ""
            description := ((item.index "description").asStr).getD "" })), w1)

/-- ASCII lowercasing of one character (Rust char::to_ascii_lowercase). -/
def charLowerAscii (c : Char) : Char :=
  if c.isUpper then Char.ofNat (c.toNat + 32) else c

/-- Rust str::eq_ignore_ascii_case. -/
def eqIgnoreAsciiCase (a b : String) : Bool :=
  a.data.map charLowerAscii == b.data.map charLowerAscii

/-- main.rs discover_oidc_auth_methods: filter for type oidc, error when
none remain. -/
def discover_oidc_auth_methods (env : Env) (w : World) (cliPath serverAddr : String) :
    Except String (List BoundaryAuthMethod) × World :=
  match discover_auth_methods env w cliPath serverAddr with
  | (.error e, w1) => (.error e, w1)
  | (.ok allMethods, w1) =>
    let oidcMethods := allMethods.filter
      (fun m => eqIgnoreAsciiCase m.method_type "oidc")
    if oidcMethods.isEmpty then
      (.error "No OIDC authentication methods available on this server", w1)
    else
      (.ok oidcMethods, w1)

/-- main.rs check_and_refresh_token_command (lines 2733-2778), transcribed
with the argument order of the call at line 2765 kept exactly as in the
source: check_and_refresh_token receives current_token.access_token in its
auth_method_id position, the discovered auth method id in its server_id
position, and server_id in its user_id position. -/
def check_and_refresh_token_command (env : Env) (w : World)
    (servers : List Server) (config : AppConfig)
    (serverId userId : String) (thresholdMinutes : Option Nat) :
    Except String StoredToken × World :=
  let threshold := thresholdMinutes.getD 5
  match retrieve_auth_token env w serverId userId with
  | .error e => (.error e, w)
  | .ok currentToken =>
    match servers.find? (fun s => s.id == serverId) with
    | none => (.error ("Server with id " ++ serverId ++ " not found"), w)
    | some server =>
      let cliPath := get_boundary_cli_path server config
      match discover_oidc_auth_methods env w cliPath server.url with
      | (.error e, w1) => (.error e, w1)
      | (.ok authMethods, w1) =>
        match authMethods.head? with
        | none => (.error "No OIDC auth methods available", w1)
        | some firstMethod =>
          match check_and_refresh_token env w1 cliPath server.url
              currentToken.access_token firstMethod.id serverId threshold with
          | (.error e, w2) => (.error e, w2)
          | (.ok (some token), w2) => (.ok token, w2)
          | (.ok none, w2) => (.ok currentToken, w2)

/-! ## C1 scenario: a token one minute from expiry, threshold five minutes -/

/-- The stored token of the C1 scenario: expires sixty seconds after the
clock of envRefresh. -/
def tokOld : StoredToken :=
  { access_token := "bt_oldtoken", refresh_token := none,
    expires_at := some "2026-01-01T00:01:00Z", server_id := "srv1",
    user_id := "alice", scope_id := "global",
    created_at := "2026-01-01T00:00:00Z" }

/-- The token a successful re-authentication produces in the C1 scenario
(exactly what trigger_reauthentication builds from the response JSON). -/
def tokNew : StoredToken :=
  { access_token := "bt_newtoken", refresh_token := none,
    expires_at := some "2026-01-01T01:00:00Z", server_id := "srv1",
    user_id := "alice", scope_id := "global",
    created_at := "2026-01-01T00:00:00Z" }

/-- CLI stdout for auth-methods list: one OIDC method amoidc_1. -/
def authMethodsJson : Json :=
  .obj [("items", .arr [ .obj
    [("id", .str "amoidc_1"), ("name", .str "oidc-primary"),
     ("type", .str "oidc"), ("description", .str "corp oidc")] ])]

/-- CLI stdout for authenticate oidc: a fresh token for alice. -/
def authResponseJson : Json :=
  .obj [("token", .str "bt_newtoken"), ("user_id", .str "alice"),
        ("expiration_time", .str "2026-01-01T01:00:00Z")]

/-- Environment for the refresh scenario: clock at 2026-01-01T00:00:00Z,
the CLI answering auth-method discovery and OIDC authentication
successfully, every other invocation failing. -/
def envRefresh : Env :=
  { now := 0
    nowStr := "2026-01-01T00:00:00Z"
    parseRfc3339 := fun s =>
      if s = "2026-01-01T00:01:00Z" then some 60
      else if s = "2026-01-01T01:00:00Z" then some 3600
      else none
    jsonParse := fun s =>
      if s = "AUTH_METHODS_JSON" then .ok authMethodsJson
      else if s = "AUTH_RESPONSE_JSON" then .ok authResponseJson
      else .error "unexpected stdout"
    serToken := fun t => if t = tokNew then "BLOB_NEW" else "BLOB_OTHER"
    deToken := fun s =>
      if s = "BLOB_OLD" then .ok tokOld
      else if s = "BLOB_NEW" then .ok tokNew
      else .error "bad blob"
    cli := fun call =>
      if call.args = ["auth-methods", "list", "-format", "json"] then
        .completed true 0 "AUTH_METHODS_JSON" ""
      else if call.args = ["authenticate", "oidc", "-auth-method-id", "amoidc_1",
          "-format", "json"] then
        .completed true 0 "AUTH_RESPONSE_JSON" ""
      else
        .completed false 1 "" "unexpected call" }

/-- World of the C1 scenario: only the expiring token for alice@srv1. -/
def wRefresh : World :=
  { keychain := [("alice@srv1", "BLOB_OLD")], trace := [] }

/-- The configured server list of the C1 scenario. -/
def serversRefresh : List Server :=
  [{ id := "srv1", name := "Server 1", url := "https://srv1",
     description := "", environment := "", region := "",
     boundary_cli_path := none }]

/-- Global configuration of the C1 scenario. -/
def configRefresh : AppConfig := { boundary_cli_path := "boundary" }

/-- Count of CLI invocations in a trace whose first argument is the
authenticate subcommand: the re-authentication (refresh) invocations. -/
def authenticateCalls (trace : List CliCall) : Nat :=
  (trace.filter (fun c => c.args.head? == some "authenticate")).length

/-- C1: in the scenario of the claim (stored token for (srv1, alice) one
minute from expiry, five-minute threshold, a CLI that would answer the
refresh successfully), check_and_refresh_token_command never invokes the
re-authentication path and hands back the stale token with the keychain
unchanged, because the call at main.rs line 2765 passes
current_token.access_token, the auth method id and server_id into the
auth_method_id, server_id and user_id parameters of
check_and_refresh_token; with the arguments in the declared parameter
order the same scenario refreshes exactly once, stores the new token, and
a subsequent retrieve_auth_token returns it. -/
theorem check_and_refresh_command_misroutes_refresh :
    (check_and_refresh_token_command envRefresh wRefresh serversRefresh
        configRefresh "srv1" "alice" none).1 = .ok tokOld
    ∧ (check_and_refresh_token_command envRefresh wRefresh serversRefresh
        configRefresh "srv1" "alice" none).2.keychain = wRefresh.keychain
    ∧ authenticateCalls (check_and_refresh_token_command envRefresh wRefresh
        serversRefresh configRefresh "srv1" "alice" none).2.trace = 0
    ∧ (check_and_refresh_token envRefresh wRefresh "boundary" "https://srv1"
        "amoidc_1" "srv1" "alice" 5).1 = .ok (some tokNew)
    ∧ authenticateCalls (check_and_refresh_token envRefresh wRefresh "boundary"
        "https://srv1" "amoidc_1" "srv1" "alice" 5).2.trace = 1
    ∧ retrieve_auth_token envRefresh (check_and_refresh_token envRefresh wRefresh
        "boundary" "https://srv1" "amoidc_1" "srv1" "alice" 5).2 "srv1" "alice"
      = .ok tokNew := by
  refine ⟨?_, ?_, ?_, ?_, ?_, ?_⟩ <;> rfl

/-! ## C9: absent credential means no refresh and no subprocess -/

/-- C9: with no stored credential for (server_id, user_id), the inner
check-and-refresh returns Ok none and the world — the keychain and, in
particular, the CLI invocation trace — is exactly the input world: no
subprocess is spawned and the refresh path is not entered. -/
theorem check_and_refresh_absent_no_subprocess (env : Env) (w : World)
    (cliPath serverAddr authMethodId serverId userId : String) (thr : Nat)
    (h : w.keychain.lookup (keychainAccount serverId userId) = none) :
    check_and_refresh_token env w cliPath serverAddr authMethodId serverId userId thr
      = (.ok none, w) := by
  simp [check_and_refresh_token, retrieve_auth_token, h]

/-- Witness for C9: the empty keychain. -/
theorem check_and_refresh_absent_no_subprocess_witness :
    check_and_refresh_token envRefresh { keychain := [], trace := [] }
        "boundary" "https://srv1" "amoidc_1" "srv1" "alice" 5
      = (.ok none, { keychain := [], trace := [] }) :=
  check_and_refresh_absent_no_subprocess envRefresh
    { keychain := [], trace := [] } "boundary" "https://srv1" "amoidc_1"
    "srv1" "alice" 5 (by rfl)

/-! ## C7: a failed refresh leaves the stored token untouched -/

/-- Remote validation never touches the keychain. -/
theorem validate_token_with_cli_keychain (env : Env) (w : World)
    (cliPath serverAddr : String) (token : StoredToken) :
    (validate_token_with_cli env w cliPath serverAddr token).2.keychain
      = w.keychain := by
  cases hbc : boundary_command_result env cliPath
      ["auth-tokens", "list", "-format", "json"] (some serverAddr) <;>
    simp [validate_token_with_cli, execute_boundary_command, hbc]

/-- Re-authentication never touches the keychain (it only runs the CLI). -/
theorem trigger_reauthentication_keychain (env : Env) (w : World)
    (cliPath serverAddr authMethodId serverId : String) :
    (trigger_reauthentication env w cliPath serverAddr authMethodId serverId).2.keychain
      = w.keychain := by
  cases h1 : boundary_command_result env cliPath
      ["authenticate", "oidc", "-auth-method-id", authMethodId, "-format", "json"]
      (some serverAddr) with
  | error e => simp [trigger_reauthentication, execute_boundary_command, h1]
  | ok r =>
    by_cases hs : (!r.success) = true
    · simp [trigger_reauthentication, execute_boundary_command, h1, hs]
    · cases h2 : env.jsonParse r.stdout with
      | error e =>
        simp [trigger_reauthentication, execute_boundary_command, h1, hs, h2]
      | ok j =>
        by_cases ha : ((j.index "token").asStr).getD "" = ""
        · cases h3 : boundary_command_result env cliPath ["config", "get-token"] none with
          | error e =>
            simp [trigger_reauthentication, execute_boundary_command, h1, hs, h2, ha, h3]
          | ok tr =>
            by_cases ht : tr.success = true <;>
              simp [trigger_reauthentication, execute_boundary_command, h1, hs, h2, ha, h3, ht]
        · simp [trigger_reauthentication, execute_boundary_command, h1, hs, h2, ha]

/-- When the refresh step fails, nothing was stored: the keychain is the
input keychain. -/
theorem refresh_and_store_error_keychain (env : Env) (w : World)
    (cliPath serverAddr authMethodId serverId e : String)
    (h : (refresh_and_store env w cliPath serverAddr authMethodId serverId).1
      = .error e) :
    (refresh_and_store env w cliPath serverAddr authMethodId serverId).2.keychain
      = w.keychain := by
  rcases htr : trigger_reauthentication env w cliPath serverAddr authMethodId serverId
    with ⟨res, w1⟩
  have hw1 : w1.keychain = w.keychain := by
    have hkc := trigger_reauthentication_keychain env w cliPath serverAddr
      authMethodId serverId
    rw [htr] at hkc
    exact hkc
  cases res with
  | error e1 => simp [refresh_and_store, htr, hw1]
  | ok newToken => simp [refresh_and_store, htr, store_auth_token] at h

/-- retrieve_auth_token reads only the keychain of the world. -/
theorem retrieve_auth_token_keychain_congr (env : Env) (w w' : World)
    (serverId userId : String) (h : w.keychain = w'.keychain) :
    retrieve_auth_token env w serverId userId
      = retrieve_auth_token env w' serverId userId := by
  simp [retrieve_auth_token, h]

/-- Keychain preservation on every failing outcome of the inner
check-and-refresh. -/
theorem check_and_refresh_error_keychain (env : Env) (w : World)
    (cliPath serverAddr authMethodId serverId userId : String) (thr : Nat)
    (e : String)
    (h : (check_and_refresh_token env w cliPath serverAddr authMethodId
      serverId userId thr).1 = .error e) :
    (check_and_refresh_token env w cliPath serverAddr authMethodId
      serverId userId thr).2.keychain = w.keychain := by
  unfold check_and_refresh_token at h ⊢
  cases hr : retrieve_auth_token env w serverId userId with
  | error e1 => simp [hr] at h
  | ok tok =>
    cases hexp : is_token_expired_or_expiring env tok thr with
    | error e2 => simp [hr, hexp]
    | ok needs =>
      cases needs with
      | false =>
        rcases hv : validate_token_with_cli env w cliPath serverAddr tok
          with ⟨vres, w1⟩
        have hw1 : w1.keychain = w.keychain := by
          have hkc := validate_token_with_cli_keychain env w cliPath serverAddr tok
          rw [hv] at hkc
          exact hkc
        cases vres with
        | error e3 => simp [hr, hexp, hv, hw1]
        | ok b =>
          cases b with
          | true => simp [hr, hexp, hv] at h
          | false =>
            have h' : (refresh_and_store env w1 cliPath serverAddr authMethodId
                serverId).1 = .error e := by
              simpa [hr, hexp, hv] using h
            have hk := refresh_and_store_error_keychain env w1 cliPath serverAddr
              authMethodId serverId e h'
            simp [hr, hexp, hv]
            rw [hk, hw1]
      | true =>
        have h' : (refresh_and_store env w cliPath serverAddr authMethodId
            serverId).1 = .error e := by
          simpa [hr, hexp] using h
        have hk := refresh_and_store_error_keychain env w cliPath serverAddr
          authMethodId serverId e h'
        simpa [hr, hexp] using hk

/-- C7: when the stored token needs a refresh and the re-authentication
step fails, the whole check-and-refresh call fails with that error, the
previously stored token is neither deleted nor overwritten (the keychain
is unchanged), and a subsequent retrieve still returns the same token;
removal of a token happens only through delete_auth_token. -/
theorem check_and_refresh_failure_keeps_token (env : Env) (w : World)
    (cliPath serverAddr authMethodId serverId userId : String) (thr : Nat)
    (e : String) (tok : StoredToken)
    (hret : retrieve_auth_token env w serverId userId = .ok tok)
    (hexp : is_token_expired_or_expiring env tok thr = .ok true)
    (htrig : (trigger_reauthentication env w cliPath serverAddr authMethodId
      serverId).1 = .error e) :
    (check_and_refresh_token env w cliPath serverAddr authMethodId
      serverId userId thr).1 = .error e
    ∧ (check_and_refresh_token env w cliPath serverAddr authMethodId
      serverId userId thr).2.keychain = w.keychain
    ∧ retrieve_auth_token env (check_and_refresh_token env w cliPath serverAddr
        authMethodId serverId userId thr).2 serverId userId = .ok tok := by
  rcases htr : trigger_reauthentication env w cliPath serverAddr authMethodId
    serverId with ⟨res, w1⟩
  rw [htr] at htrig
  simp at htrig
  subst htrig
  have hw1 : w1.keychain = w.keychain := by
    have hkc := trigger_reauthentication_keychain env w cliPath serverAddr
      authMethodId serverId
    rw [htr] at hkc
    exact hkc
  have hcall : check_and_refresh_token env w cliPath serverAddr authMethodId
      serverId userId thr = (.error e, w1) := by
    simp [check_and_refresh_token, hret, hexp, refresh_and_store, htr]
  refine ⟨by simp [hcall], by simp [hcall, hw1], ?_⟩
  rw [hcall]
  have := retrieve_auth_token_keychain_congr env w1 w serverId userId hw1
  rw [this]
  exact hret

/-- Environment of the failed-refresh scenario: the expiring token is
present but the authenticate command is refused by the CLI. -/
def envFail : Env :=
  { envRefresh with
    cli := fun call =>
      if call.args.head? == some "authenticate" then
        .completed false 1 "" "auth denied"
      else
        .completed false 1 "" "unexpected call" }

/-- Witness for C7: expiring token, refused re-authentication; the call
fails, the keychain keeps the old blob, and retrieve still returns the
old token. -/
theorem check_and_refresh_failure_keeps_token_witness :
    (check_and_refresh_token envFail wRefresh "boundary" "https://srv1"
        "amoidc_1" "srv1" "alice" 5).1
      = .error "Re-authentication failed: auth denied"
    ∧ (check_and_refresh_token envFail wRefresh "boundary" "https://srv1"
        "amoidc_1" "srv1" "alice" 5).2.keychain = wRefresh.keychain
    ∧ retrieve_auth_token envFail (check_and_refresh_token envFail wRefresh
        "boundary" "https://srv1" "amoidc_1" "srv1" "alice" 5).2 "srv1" "alice"
      = .ok tokOld :=
  check_and_refresh_failure_keeps_token envFail wRefresh "boundary"
    "https://srv1" "amoidc_1" "srv1" "alice" 5
    "Re-authentication failed: auth denied" tokOld (by rfl) (by rfl) (by rfl)

/-! ## SessionAuthorizer discovery (main.rs lines 772-946) -/

/-- main.rs discover_scopes. -/
def discover_scopes (env : Env) (w : World) (cliPath serverAddr : String) :
    Except String (List BoundaryScope) × World :=
  match execute_boundary_command env w cliPath
      ["scopes", "list", "-format", "json"] (some serverAddr) with
  | (.error e, w1) => (.error e, w1)
  | (.ok result, w1) =>
    if !result.success then
      (.error ("Failed to discover scopes: " ++ result.stderr), w1)
    else
      match env.jsonParse result.stdout with
      | .error e => (.error ("Failed to parse scopes JSON: " ++ e), w1)
      | .ok json =>
        let items := ((json.index "items").asArray).getD []
        (.ok (items.map (fun item =>
          { id := ((item.index "id").asStr).getD ""
            name := ((item.index "name").asStr).getD ""
            scope_type := ((item.index "type").asStr).getD ""
            description := ((item.index "description").asStr).getD "" })), w1)

/-- Argument list of the targets list command, with the optional scope
filter appended as in the source. -/
def targets_args (scopeId : Option String) : List String :=
  ["targets", "list", "-format", "json"] ++
    (match scopeId with
     | some s => ["-scope-id", s]
     | none => [])

/-- The pure result of one targets list invocation (a function of the
environment and the call data only). -/
def discover_targets_result (env : Env) (cliPath serverAddr : String)
    (scopeId : Option String) : Except String (List BoundaryTarget) :=
  match boundary_command_result env cliPath (targets_args scopeId) (some serverAddr) with
  | .error e => .error e
  | .ok result =>
    if !result.success then
      .error ("Failed to discover targets: " ++ result.stderr)
    else
      match env.jsonParse result.stdout with
      | .error e => .error ("Failed to parse targets JSON: " ++ e)
      | .ok json =>
        let items := ((json.index "items").asArray).getD []
        .ok (items.map (fun item =>
          { id := ((item.index "id").asStr).getD ""
            name := ((item.index "name").asStr).getD ""
            target_type := ((item.index "type").asStr).getD ""
            description := ((item.index "description").asStr).getD ""
            address := (item.index "address").asStr
            default_port := (item.index "default_port").asInt.bind
              (fun n => if n < 0 then none else some (n.toNat % 65536)) }))

/-- main.rs discover_targets: one CLI invocation, then the lenient item
parse of discover_targets_result. -/
def discover_targets (env : Env) (w : World) (cliPath serverAddr : String)
    (scopeId : Option String) : Except String (List BoundaryTarget) × World :=
  match execute_boundary_command env w cliPath (targets_args scopeId) (some serverAddr) with
  | (.error e, w1) => (.error e, w1)
  | (.ok result, w1) =>
    if !result.success then
      (.error ("Failed to discover targets: " ++ result.stderr), w1)
    else
      match env.jsonParse result.stdout with
      | .error e => (.error ("Failed to parse targets JSON: " ++ e), w1)
      | .ok json =>
        let items := ((json.index "items").asArray).getD []
        (.ok (items.map (fun item =>
          { id := ((item.index "id").asStr).getD ""
            name := ((item.index "name").asStr).getD ""
            target_type := ((item.index "type").asStr).getD ""
            description := ((item.index "description").asStr).getD ""
            address := (item.index "address").asStr
            default_port := (item.index "default_port").asInt.bind
              (fun n => if n < 0 then none else some (n.toNat % 65536)) })), w1)

/-- discover_targets is the pure per-call result together with one trace
entry for its single CLI invocation. -/
theorem discover_targets_eq (env : Env) (w : World) (cliPath serverAddr : String)
    (scopeId : Option String) :
    discover_targets env w cliPath serverAddr scopeId
      = (discover_targets_result env cliPath serverAddr scopeId,
         { w with trace := w.trace
            ++ [⟨cliPath, targets_args scopeId, some serverAddr⟩] }) := by
  cases h : boundary_command_result env cliPath (targets_args scopeId) (some serverAddr) with
  | error e =>
    simp [discover_targets, discover_targets_result, execute_boundary_command, h]
  | ok result =>
    by_cases hs : (!result.success) = true
    · simp [discover_targets, discover_targets_result, execute_boundary_command, h, hs]
    · cases hj : env.jsonParse result.stdout with
      | error e =>
        simp [discover_targets, discover_targets_result, execute_boundary_command, h, hs, hj]
      | ok json =>
        simp [discover_targets, discover_targets_result, execute_boundary_command, h, hs, hj]

/-- The for-loop of main.rs discover_all_targets (lines 928-941): one
per-scope discovery for each scope, appending the targets of successful
scopes and skipping failed ones. -/
def discover_targets_fanout (env : Env) (cliPath serverAddr : String) :
    List BoundaryScope → World → List BoundaryTarget × World
  | [], w => ([], w)
  | scope :: rest, w =>
    match discover_targets env w cliPath serverAddr (some scope.id) with
    | (.ok scopeTargets, w1) =>
      let tail := discover_targets_fanout env cliPath serverAddr rest w1
      (scopeTargets ++ tail.1, tail.2)
    | (.error _, w1) =>
      discover_targets_fanout env cliPath serverAddr rest w1

/-- main.rs discover_all_targets: list all scopes, then fan out. -/
def discover_all_targets (env : Env) (w : World) (cliPath serverAddr : String) :
    Except String (List BoundaryTarget) × World :=
  match discover_scopes env w cliPath serverAddr with
  | (.error e, w1) => (.error e, w1)
  | (.ok scopes, w1) =>
    let r := discover_targets_fanout env cliPath serverAddr scopes w1
    (.ok r.1, r.2)

/-- The targets contributed by one scope: its discovery result when it
succeeded, nothing when it failed. -/
def scope_targets (env : Env) (cliPath serverAddr : String)
    (scope : BoundaryScope) : List BoundaryTarget :=
  match discover_targets_result env cliPath serverAddr (some scope.id) with
  | .ok ts => ts
  | .error _ => []

/-- The CLI invocation of one per-scope target discovery. -/
def targets_call (cliPath serverAddr : String) (scope : BoundaryScope) : CliCall :=
  ⟨cliPath, targets_args (some scope.id), some serverAddr⟩

/-- The fan-out loop aggregates exactly the targets of the successful
scopes, in scope order, and performs exactly one CLI invocation per
scope, failures included. -/
theorem discover_targets_fanout_spec (env : Env) (cliPath serverAddr : String)
    (scopes : List BoundaryScope) (w : World) :
    discover_targets_fanout env cliPath serverAddr scopes w
      = ((scopes.map (scope_targets env cliPath serverAddr)).flatten,
         { w with trace := w.trace ++ scopes.map (targets_call cliPath serverAddr) }) := by
  induction scopes generalizing w with
  | nil => simp [discover_targets_fanout]
  | cons scope rest ih =>
    cases h : discover_targets_result env cliPath serverAddr (some scope.id) with
    | ok ts =>
      simp [discover_targets_fanout, discover_targets_eq, h, ih,
        scope_targets, targets_call]
    | error e =>
      simp [discover_targets_fanout, discover_targets_eq, h, ih,
        scope_targets, targets_call]

/-- C6: discover_all_targets propagates a scope-listing failure, and for
every scope list the scope listing returns, it performs one per-scope
discovery per scope (one CLI invocation each, also for the failing ones)
and returns exactly the concatenation of the targets of the scopes whose
discovery succeeded — a per-scope failure is skipped, not fatal. -/
theorem discover_all_targets_aggregates (env : Env) (w : World)
    (cliPath serverAddr : String) :
    (∀ e, (discover_scopes env w cliPath serverAddr).1 = .error e →
      discover_all_targets env w cliPath serverAddr
        = (.error e, (discover_scopes env w cliPath serverAddr).2))
    ∧ ∀ scopes, (discover_scopes env w cliPath serverAddr).1 = .ok scopes →
        (discover_all_targets env w cliPath serverAddr).1
          = .ok ((scopes.map (scope_targets env cliPath serverAddr)).flatten)
        ∧ (discover_all_targets env w cliPath serverAddr).2.trace
          = (discover_scopes env w cliPath serverAddr).2.trace
            ++ scopes.map (targets_call cliPath serverAddr) := by
  rcases hds : discover_scopes env w cliPath serverAddr with ⟨res, w1⟩
  constructor
  · intro e he
    cases res with
    | error e1 =>
      simp at he
      subst he
      simp [discover_all_targets, hds]
    | ok scopes => simp at he
  · intro scopes hscopes
    cases res with
    | error e1 => simp at hscopes
    | ok scopes1 =>
      simp at hscopes
      subst hscopes
      simp [discover_all_targets, hds, discover_targets_fanout_spec]

/-- Scope and target data of the fan-out witness scenario. -/
def scopesJson : Json :=
  .obj [("items", .arr [
    .obj [("id", .str "sc_ok"), ("name", .str "org-ok"),
          ("type", .str "org"), ("description", .str "good scope")],
    .obj [("id", .str "sc_bad"), ("name", .str "org-bad"),
          ("type", .str "org"), ("description", .str "failing scope")] ])]

/-- Targets JSON of the successful scope of the witness scenario. -/
def targetsOkJson : Json :=
  .obj [("items", .arr [
    .obj [("id", .str "ttcp_1"), ("name", .str "host1"),
          ("type", .str "ssh"), ("description", .str ""),
          ("address", .str "10.0.0.7"), ("default_port", .num 22)] ])]

/-- Environment of the fan-out witness: two scopes, target discovery
succeeding on sc_ok and refused on sc_bad. -/
def envDisc : Env :=
  { envRefresh with
    jsonParse := fun s =>
      if s = "SCOPES_JSON" then .ok scopesJson
      else if s = "TARGETS_OK_JSON" then .ok targetsOkJson
      else .error "unexpected stdout"
    cli := fun call =>
      if call.args = ["scopes", "list", "-format", "json"] then
        .completed true 0 "SCOPES_JSON" ""
      else if call.args = ["targets", "list", "-format", "json", "-scope-id", "sc_ok"] then
        .completed true 0 "TARGETS_OK_JSON" ""
      else if call.args = ["targets", "list", "-format", "json", "-scope-id", "sc_bad"] then
        .completed false 1 "" "permission denied"
      else
        .completed false 1 "" "unexpected call" }

/-- The empty world. -/
def wEmpty : World := { keychain := [], trace := [] }

/-- The scope list the witness scenario discovers. -/
def scopesDisc : List BoundaryScope :=
  [{ id := "sc_ok", name := "org-ok", scope_type := "org",
     description := "good scope" },
   { id := "sc_bad", name := "org-bad", scope_type := "org",
     description := "failing scope" }]

/-- Witness for C6: with one succeeding and one failing scope, the
aggregate holds the targets of the successful scope and both scopes were
queried. -/
theorem discover_all_targets_aggregates_witness :
    (discover_all_targets envDisc wEmpty "boundary" "https://srv1").1
      = .ok ((scopesDisc.map (scope_targets envDisc "boundary" "https://srv1")).flatten)
    ∧ (discover_all_targets envDisc wEmpty "boundary" "https://srv1").2.trace
      = (discover_scopes envDisc wEmpty "boundary" "https://srv1").2.trace
        ++ scopesDisc.map (targets_call "boundary" "https://srv1") :=
  (discover_all_targets_aggregates envDisc wEmpty "boundary" "https://srv1").2
    scopesDisc (by rfl)

/-! ## OutputParser: parse_connection_info (main.rs lines 1049-1078)

Both patterns of the source have the shape literal text, then one or more
whitespace characters, then a greedy capture of one or more characters of
a class (non-whitespace for Address, digits for Port).  The scanner below
implements leftmost matching of exactly that pattern shape. -/

/-- ASCII whitespace class of the regex metacharacter for whitespace. -/
def isWspace (c : Char) : Bool :=
  c == ' ' || c == '\t' || c == '\n' || c == '\r'
    || c.toNat == 11 || c.toNat == 12

/-- Match the literal head of the pattern at the current position,
returning the remaining input. -/
def litMatch : List Char → List Char → Option (List Char)
  | [], cs => some cs
  | _ :: _, [] => none
  | l :: ls, c :: cs => if c = l then litMatch ls cs else none

/-- One anchored match attempt: the literal, one or more whitespace
characters, then the greedy nonempty capture of the class cap. -/
def tryMatch (lit : List Char) (cap : Char → Bool) (cs : List Char) :
    Option (List Char) :=
  match litMatch lit cs with
  | none => none
  | some rest =>
    if (rest.takeWhile isWspace).isEmpty then none
    else
      let capture := (rest.dropWhile isWspace).takeWhile cap
      if capture.isEmpty then none else some capture

/-- Leftmost match of the pattern over the whole input. -/
def scanFirst (lit : List Char) (cap : Char → Bool) : List Char → Option (List Char)
  | [] => tryMatch lit cap []
  | c :: rest =>
    match tryMatch lit cap (c :: rest) with
    | some r => some r
    | none => scanFirst lit cap rest

/-- Value of a digit string. -/
def digitsToNat (ds : List Char) : Nat :=
  ds.foldl (fun n c => n * 10 + (c.toNat - 48)) 0

/-- Rust u16::from_str on a digit string: the value when it fits in 16
bits, failure above 65535. -/
def parseU16 (ds : List Char) : Option Nat :=
  if digitsToNat ds ≤ 65535 then some (digitsToNat ds) else none

/-- The address the Address pattern extracts, defaulting to the loopback
address when the pattern is absent (main.rs lines 1057-1061). -/
def extractedAddress (output : String) : String :=
  match scanFirst "Address:".data (fun c => !(isWspace c)) output.data with
  | some cap => String.mk cap
  | none => "127.0.0.1"

/-- The port value after pattern extraction, u16 parsing, and the
fallback to 0 of the source (main.rs lines 1063-1070). -/
def extractedPort (output : String) : Nat :=
  match scanFirst "Port:".data Char.isDigit output.data with
  | some ds => (parseU16 ds).getD 0
  | none => 0

/-- main.rs parse_connection_info: tolerant extraction with the loopback
default for the address; a missing, zero or unparsable port is an error. -/
def parse_connection_info (output : String) : Except String (String × Nat) :=
  let address := extractedAddress output
  let port := extractedPort output
  if port = 0 then
    .error "Failed to parse valid port from connection output"
  else
    .ok (address, port)

/-- C5: the example input yields (10.0.0.5, 4000); an input without an
Address field gets the loopback default; a missing Port field, a Port
field that does not parse as a 16-bit number, and a port value of zero
each make parse_connection_info fail with the port error. -/
theorem parse_connection_info_spec :
    parse_connection_info "Address: 10.0.0.5\nPort: 4000" = .ok ("10.0.0.5", 4000)
    ∧ (∀ s, scanFirst "Address:".data (fun c => !(isWspace c)) s.data = none →
        extractedAddress s = "127.0.0.1")
    ∧ (∀ s, scanFirst "Port:".data Char.isDigit s.data = none →
        extractedPort s = 0)
    ∧ (∀ s ds, scanFirst "Port:".data Char.isDigit s.data = some ds →
        parseU16 ds = none → extractedPort s = 0)
    ∧ (∀ s, extractedPort s = 0 →
        parse_connection_info s
          = .error "Failed to parse valid port from connection output") := by
  refine ⟨by rfl, ?_, ?_, ?_, ?_⟩
  · intro s h
    simp [extractedAddress, h]
  · intro s h
    simp [extractedPort, h]
  · intro s ds h hp
    simp [extractedPort, h, hp]
  · intro s h
    simp [parse_connection_info, h]

/-- Witness for C5: the loopback default and the three failing port
shapes at concrete inputs. -/
theorem parse_connection_info_spec_witness :
    extractedAddress "Port: 9" = "127.0.0.1"
    ∧ parse_connection_info "Address: 1.2.3.4\nPort: 0"
      = .error "Failed to parse valid port from connection output"
    ∧ parse_connection_info "Address: 1.2.3.4"
      = .error "Failed to parse valid port from connection output"
    ∧ parse_connection_info "Port: 70000"
      = .error "Failed to parse valid port from connection output" := by
  exact ⟨parse_connection_info_spec.2.1 "Port: 9" (by rfl),
    parse_connection_info_spec.2.2.2.2 "Address: 1.2.3.4\nPort: 0" (by rfl),
    parse_connection_info_spec.2.2.2.2 "Address: 1.2.3.4" (by rfl),
    parse_connection_info_spec.2.2.2.2 "Port: 70000" (by rfl)⟩

/-! ## SessionMonitor (main.rs lines 1811-1951) -/

/-- main.rs check_session_health: one sessions read invocation; on
success map the remote status (active becomes healthy, anything else
becomes session_status_ followed by the remote status, an unparsable body
counts as healthy); a failed command is unhealthy, a failed spawn is
error.  elapsedMs stands for the measured wall-clock response time. -/
def check_session_health (env : Env) (w : World)
    (cliPath serverAddr sessionId : String) (elapsedMs : Nat) :
    SessionHealth × World :=
  match execute_boundary_command env w cliPath
      ["sessions", "read", "-id", sessionId, "-format", "json"] (some serverAddr) with
  | (res, w1) =>
    let t : String × Option Nat × Nat :=
      match res with
      | .ok cmdResult =>
        if cmdResult.success then
          match env.jsonParse cmdResult.stdout with
          | .ok sessionInfo =>
            let sessionStatus := ((sessionInfo.index "status").asStr).getD "unknown"
            if sessionStatus = "active" then ("healthy", some elapsedMs, 0)
            else ("session_status_" ++ sessionStatus, some elapsedMs, 0)
          | .error _ => ("healthy", some elapsedMs, 0)
        else ("unhealthy", none, 1)
      | .error _ => ("error", none, 1)
    ({ session_id := sessionId, status := t.1, last_check := env.nowStr,
       response_time_ms := t.2.1, error_count := t.2.2,
       consecutive_failures := if t.2.2 > 0 then 1 else 0 }, w1)

/-- The per-connection health record the monitoring tick actually builds
(main.rs lines 1913-1928): derived from the local status field of the
tracked connection, with a mock response time, and no CLI call. -/
def dummy_session_health (env : Env) (conn : BoundaryConnection) : SessionHealth :=
  { session_id := conn.session_id
    status := if conn.status = "active" then "healthy" else "unhealthy"
    last_check := env.nowStr
    response_time_ms := some 50
    error_count := 0
    consecutive_failures := 0 }

/-- main.rs monitor_active_sessions: a disabled tick reports zeros and
touches nothing; an enabled tick builds the placeholder health record of
each tracked connection and writes all of them into the health table. -/
def monitor_active_sessions (env : Env) (w : World) (st : AppState) :
    SessionMonitoringStats × AppState × World :=
  if st.monitoring_enabled = false then
    ({ total_sessions := 0, active_sessions := 0, failed_sessions := 0,
       monitoring_enabled := false, last_check := env.nowStr }, st, w)
  else
    let healthChecks := st.active_connections.map (dummy_session_health env)
    let stats : SessionMonitoringStats :=
      { total_sessions := st.active_connections.length
        active_sessions := (healthChecks.filter (fun h => h.status == "healthy")).length
        failed_sessions := (healthChecks.filter (fun h => h.status != "healthy")).length
        monitoring_enabled := true
        last_check := env.nowStr }
    (stats,
     { st with session_health :=
        healthChecks.foldl (fun m h => alistSet m h.session_id h) st.session_health },
     w)

/-- The tracked connection of the monitoring scenario: locally marked
active while the remote side reports the session terminated. -/
def connMon : BoundaryConnection :=
  { session_id := "sess_1", target_id := "ttcp_1", target_name := "host1",
    connection_type := "ssh", local_address := "127.0.0.1",
    local_port := 50000, status := "active",
    created_time := "2026-01-01T00:00:00Z", expiration_time := none }

/-- Registry state of the monitoring scenario. -/
def stMon : AppState :=
  { active_connections := [connMon], session_health := [],
    monitoring_enabled := true }

/-- Environment of the monitoring scenario: the CLI would answer the
sessions read with remote status terminated. -/
def envMon : Env :=
  { envRefresh with
    jsonParse := fun s =>
      if s = "SESSION_JSON" then .ok (.obj [("status", .str "terminated")])
      else .error "unexpected stdout"
    cli := fun call =>
      if call.args = ["sessions", "read", "-id", "sess_1", "-format", "json"] then
        .completed true 0 "SESSION_JSON" ""
      else
        .completed false 1 "" "unexpected call" }

/-- C3: an enabled monitoring tick over one tracked connection performs
zero CLI invocations and writes the health status healthy derived from
the local status field, although the remote session is terminated; the
remote query and status mapping the claim describes exist only in
check_session_health, which the tick never calls, and which on the same
environment would have produced session_status_terminated through one
sessions read invocation. -/
theorem monitor_tick_uses_local_status_only :
    (monitor_active_sessions envMon wEmpty stMon).2.2.trace = []
    ∧ ((monitor_active_sessions envMon wEmpty stMon).2.1.session_health.lookup
        "sess_1").map SessionHealth.status = some "healthy"
    ∧ (check_session_health envMon wEmpty "boundary" "https://srv1" "sess_1" 50).1.status
      = "session_status_terminated"
    ∧ (check_session_health envMon wEmpty "boundary" "https://srv1" "sess_1" 50).2.trace
      = [⟨"boundary", ["sessions", "read", "-id", "sess_1", "-format", "json"],
          some "https://srv1"⟩] := by
  exact ⟨rfl, rfl, rfl, rfl⟩

/-! ## ConnectionRegistry (main.rs lines 2494-2568) -/

/-- The registry effect of establish_connection_command (main.rs lines
2527-2531): an unconditional push of the new connection onto the
active-connections table. -/
def registry_establish (conns : List BoundaryConnection)
    (c : BoundaryConnection) : List BoundaryConnection :=
  conns ++ [c]

/-- The registry effect of terminate_connection_command (main.rs lines
2552-2561): remove the first connection with the given session id; none
when no connection matches (the command then errors and the table is
unchanged). -/
def registry_terminate (sessionId : String) :
    List BoundaryConnection → Option (List BoundaryConnection)
  | [] => none
  | c :: rest =>
    if c.session_id == sessionId then some rest
    else (registry_terminate sessionId rest).map (fun l => c :: l)

/-- Registry states reachable by any sequence of the two commands. -/
inductive Reachable : List BoundaryConnection → Prop where
  | init : Reachable []
  | establish {conns : List BoundaryConnection} (c : BoundaryConnection) :
      Reachable conns → Reachable (registry_establish conns c)
  | terminate {conns conns2 : List BoundaryConnection} (sid : String) :
      Reachable conns → registry_terminate sid conns = some conns2 →
      Reachable conns2

/-- C8 counterexample: two establish commands carrying the same session
authorization push two connections with the same session id, so a
registry state violating session-id uniqueness is reachable. -/
theorem registry_duplicate_session_id_reachable :
    Reachable [connMon, connMon]
    ∧ ¬ (List.map BoundaryConnection.session_id [connMon, connMon]).Nodup := by
  constructor
  · exact Reachable.establish connMon (Reachable.establish connMon Reachable.init)
  · decide

/-- Registry states reachable when every established connection carries a
session id different from all currently tracked ones. -/
inductive ReachableFresh : List BoundaryConnection → Prop where
  | init : ReachableFresh []
  | establish {conns : List BoundaryConnection} (c : BoundaryConnection)
      (fresh : ∀ c0 ∈ conns, c0.session_id ≠ c.session_id) :
      ReachableFresh conns → ReachableFresh (registry_establish conns c)
  | terminate {conns conns2 : List BoundaryConnection} (sid : String) :
      ReachableFresh conns → registry_terminate sid conns = some conns2 →
      ReachableFresh conns2

/-- Termination removes one element: the resulting table is a sublist. -/
theorem registry_terminate_sublist (sid : String) :
    ∀ conns conns2 : List BoundaryConnection,
      registry_terminate sid conns = some conns2 → conns2.Sublist conns := by
  intro conns
  induction conns with
  | nil =>
    intro conns2 h
    simp [registry_terminate] at h
  | cons c rest ih =>
    intro conns2 h
    by_cases hc : (c.session_id == sid) = true
    · simp [registry_terminate, hc] at h
      subst h
      exact List.sublist_cons_self c rest
    · simp [registry_terminate, hc] at h
      rcases h with ⟨l, hl, rfl⟩
      exact (ih l hl).cons₂ c

/-- C8 amended: session ids are unique in every registry state reachable
by command sequences in which each establish carries a session id not
currently tracked; the registry itself enforces nothing (establish
appends unconditionally). -/
theorem registry_session_ids_nodup_of_fresh
    {conns : List BoundaryConnection} (h : ReachableFresh conns) :
    (conns.map BoundaryConnection.session_id).Nodup := by
  induction h with
  | init => simp
  | establish c fresh _ ih =>
    rw [registry_establish, List.map_append, List.nodup_append]
    refine ⟨ih, by simp, ?_⟩
    intro x hx hx2
    simp at hx2
    subst hx2
    rcases List.mem_map.mp hx with ⟨c0, hc0, hsid⟩
    exact fresh c0 hc0 hsid
  | terminate sid _ hterm ih =>
    have hsub := registry_terminate_sublist sid _ _ hterm
    exact List.Nodup.sublist (List.Sublist.map _ hsub) ih

/-- Witness for the amended C8: one fresh establish from the empty
registry yields a duplicate-free table. -/
theorem registry_session_ids_nodup_of_fresh_witness :
    ((registry_establish [] connMon).map BoundaryConnection.session_id).Nodup :=
  registry_session_ids_nodup_of_fresh
    (ReachableFresh.establish connMon (by simp) ReachableFresh.init)

/-! ## C2: execute_boundary_command has no timeout -/

/-- The behavior of one child process: whether the spawn succeeds, how
many milliseconds the child runs before exiting, and what it produces. -/
structure ChildBehavior where
  spawnOk : Bool
  spawnErrMsg : String
  runTimeMs : Nat
  success : Bool
  exitCode : Int
  stdout : String
  stderr : String
  deriving DecidableEq

/-- The per-invocation outcome taxonomy of the spec: a captured result, a
spawn failure, or the timeout outcome the claim requires. -/
inductive ProcessOutcome where
  | ok (r : BoundaryCommandResult)
  | spawnFailure (msg : String)
  | timeout
  deriving DecidableEq

/-- main.rs execute_boundary_command (lines 637-699) at the granularity
of one child process with an explicit running time: the source builds the
command, pipes stdout and stderr, nulls stdin, and awaits cmd.output()
unconditionally, so the call blocks for the whole running time of the
child and returns its captured output; the only other outcome in the
source is a spawn failure.  The second component is the time the call
blocks before returning. -/
def execute_boundary_command_timed (cliPath : String) (args : List String)
    (serverAddr : Option String) (child : ChildBehavior) :
    ProcessOutcome × Nat :=
  if child.spawnOk then
    (.ok { success := child.success, exit_code := child.exitCode,
           stdout := child.stdout, stderr := child.stderr,
           command := commandString cliPath args }, child.runTimeMs)
  else
    (.spawnFailure ("Failed to execute Boundary CLI command "
      ++ commandString cliPath args ++ ": " ++ child.spawnErrMsg), 0)

/-- A child that runs for a full day and then succeeds. -/
def longChild : ChildBehavior :=
  { spawnOk := true, spawnErrMsg := "", runTimeMs := 86400000,
    success := true, exitCode := 0, stdout := "ok", stderr := "" }

/-- C2: every invocation ends in a captured result or a spawn failure —
the timeout outcome is unreachable; the call blocks for exactly the
running time of the child, unbounded by any configured limit; and a child
running a full day still blocks the call for the whole day and yields its
output rather than a timeout error.  The source wires no timeout around
cmd.output(), never terminates the child, and its error type (String)
has no Timeout value. -/
theorem execute_boundary_command_never_times_out :
    (∀ (cliPath : String) (args : List String) (serverAddr : Option String)
        (child : ChildBehavior),
      (∃ r, (execute_boundary_command_timed cliPath args serverAddr child).1
          = ProcessOutcome.ok r)
      ∨ (∃ m, (execute_boundary_command_timed cliPath args serverAddr child).1
          = ProcessOutcome.spawnFailure m))
    ∧ (∀ (cliPath : String) (args : List String) (serverAddr : Option String)
        (child : ChildBehavior),
      (execute_boundary_command_timed cliPath args serverAddr child).2
        = if child.spawnOk then child.runTimeMs else 0)
    ∧ execute_boundary_command_timed "boundary" ["version"] none longChild
      = (.ok { success := true, exit_code := 0, stdout := "ok", stderr := "",
               command := "boundary version" }, 86400000) := by
  refine ⟨?_, ?_, by rfl⟩
  · intro cliPath args serverAddr child
    by_cases h : child.spawnOk = true
    · exact Or.inl ⟨({ success := child.success,
                       exit_code := child.exitCode,
                       stdout := child.stdout, stderr := child.stderr,
                       command := commandString cliPath args } : BoundaryCommandResult),
        by simp [execute_boundary_command_timed, h]⟩
    · exact Or.inr ⟨"Failed to execute Boundary CLI command "
        ++ commandString cliPath args ++ ": " ++ child.spawnErrMsg,
        by simp [execute_boundary_command_timed, h]⟩
  · intro cliPath args serverAddr child
    by_cases h : child.spawnOk = true <;>
      simp [execute_boundary_command_timed, h]

end Regis
